import Mathlib

/-!
Shallow embedding of `include/boost/asio/gnutls/context.hpp` from the
boost-asio-gnutls repository: the `context` / `context_base` classes, their
`impl` credential store, and the dual throwing / error-code mutator API.

The native GnuTLS engine is external to the repository; every point where the
code calls into GnuTLS is modelled by passing the engine's integer return value
as an explicit parameter and recording the call in a trace of `NativeCall`
values, so that "the native credential handle is unchanged" is expressed as
"no native call was made".
-/

namespace BoostAsioGnutls

/-- An error category, mirroring the distinct `boost::system::error_category`
instances reachable from this header: the generic/system category (which
`boost::asio::error::basic_errors` values such as `operation_not_supported`
use), and the GnuTLS ssl and stream categories from `error::get_ssl_category`
and `error::get_stream_category`. -/
inductive ErrCategory
  | system
  | ssl
  | stream
deriving DecidableEq, Repr

/-- A `boost::system::error_code`: an integer value plus a category.
Truthiness of an `error_code` (`if (ec) ...`) is `val ≠ 0`. -/
structure ErrorCode where
  val : Int
  cat : ErrCategory
deriving DecidableEq, Repr

/-- A default-constructed `error_code`: value 0, success. -/
def ErrorCode.success : ErrorCode := ⟨0, .system⟩

/-- The boolean conversion of `error_code` used by `if (ec)`. -/
def ErrorCode.isFailure (ec : ErrorCode) : Bool := ec.val != 0

/-- Describes `boost::asio::error::operation_not_supported`: a fixed nonzero
code in the generic/system category (its concrete numeric value on the host is
irrelevant to the claims; only that it is a fixed failure value matters). -/
def operation_not_supported : ErrorCode := ⟨95, .system⟩

/-- GNUTLS_E_SUCCESS. -/
def GNUTLS_E_SUCCESS : Int := 0

/-- The `context_base::file_format` enumeration. -/
inductive file_format
  | pem
  | der
deriving DecidableEq, Repr

/-- The named `context_base::method` constants, with their exact integer
values from the header. -/
def tls : Nat := 0x0000
def tls_client : Nat := 0x0001
def tls_server : Nat := 0x0002
def tlsv1 : Nat := 0x1000
def tlsv1_client : Nat := 0x1001
def tlsv1_server : Nat := 0x1002
def tlsv11 : Nat := 0x1100
def tlsv11_client : Nat := 0x1101
def tlsv11_server : Nat := 0x1102
def tlsv12 : Nat := 0x1200
def tlsv12_client : Nat := 0x1201
def tlsv12_server : Nat := 0x1202
def tlsv13 : Nat := 0x1300
def tlsv13_client : Nat := 0x1301
def tlsv13_server : Nat := 0x1302
def sslv23 : Nat := 0x0300
def sslv23_client : Nat := 0x0301
def sslv23_server : Nat := 0x0302

/-- All named `method` constants, in declaration order. -/
def methodConstants : List Nat :=
  [tls, tls_client, tls_server,
   tlsv1, tlsv1_client, tlsv1_server,
   tlsv11, tlsv11_client, tlsv11_server,
   tlsv12, tlsv12_client, tlsv12_server,
   tlsv13, tlsv13_client, tlsv13_server,
   sslv23, sslv23_client, sslv23_server]

/-- The `_server`-suffixed method constants. -/
def serverConstants : List Nat :=
  [tls_server, tlsv1_server, tlsv11_server, tlsv12_server, tlsv13_server,
   sslv23_server]

/-- `context::impl::is_server`: `(static_cast<unsigned int>(m) & 0x2) != 0`. -/
def is_server (m : Nat) : Bool := m &&& 0x2 != 0

/-- `context::impl::tls_version`: `static_cast<unsigned int>(m) >> 16`.
(Note the shift amount in the source is 16, although the `method` constants
encode the forced version in bits 8..15, per the source comment
`0xXY.. => TLS X.Y`.) -/
def tls_version (m : Nat) : Nat := m >>> 16

/-- What the `method`-constant comment `0xXY.. => TLS X.Y` documents: the
forced major.minor pair occupies bits 8..15 of the constant, so extracting it
requires a shift by 8. -/
def documented_tls_version (m : Nat) : Nat := m >>> 8

/-- One call into the native GnuTLS engine made by a mutator, with the
arguments the source passes. Constructing or extending a trace of these is
the model of mutating the native credential handle. -/
inductive NativeCall
  | set_x509_system_trust
  | set_x509_key_file2 (certfile keyfile : String) (fmt : file_format) (pass : String)
  | set_x509_key_mem2 (cert key : String) (fmt : file_format) (pass : String)
  | set_x509_trust_mem (ca : String) (fmt : file_format)
  | set_known_dh_params
deriving DecidableEq, Repr

/-- The mutable configuration state of `context::impl` (the credential
store), minus the back-pointer `parent` which is modelled separately for the
move-semantics claim. Callbacks are stored opaquely as tokens (`Option Nat`):
the header only ever stores them, never calls them. -/
structure CredState where
  m : Nat
  cred : Nat
  verify : Int
  opts : Int
  certificate_file : String
  private_key_file : String
  certificate : String
  private_key : String
  passphrase : String
  verify_callback : Option Nat
  servername_callback : Option Nat
deriving DecidableEq, Repr

/-- The result of one non-throwing mutator call: the credential store after
the call, the value held by the caller's `error_code` after the call, and the
trace of native-engine calls the mutator performed. -/
structure MutRes where
  state : CredState
  ec : ErrorCode
  calls : List NativeCall
deriving DecidableEq, Repr

/-- `context::set_options(options opts, error_code& ec)`:
`m_impl->opts = opts; return ec;`. -/
def set_options (s : CredState) (opts : Int) (ec : ErrorCode) : MutRes :=
  ⟨{ s with opts := opts }, ec, []⟩

/-- `context::clear_options(error_code& ec)`: `m_impl->opts = 0;`. -/
def clear_options (s : CredState) (ec : ErrorCode) : MutRes :=
  ⟨{ s with opts := 0 }, ec, []⟩

/-- `context::set_default_verify_paths(error_code& ec)`. `sysTrustRet` is the
value returned by `gnutls_certificate_set_x509_system_trust`. -/
def set_default_verify_paths (s : CredState) (sysTrustRet : Int) (ec : ErrorCode) : MutRes :=
  let ec := if sysTrustRet != GNUTLS_E_SUCCESS then ⟨sysTrustRet, .ssl⟩ else ec
  ⟨s, ec, [.set_x509_system_trust]⟩

/-- `context::set_verify_mode(verify_mode v, error_code& ec)`:
`m_impl->verify = v; return ec;`. -/
def set_verify_mode (s : CredState) (v : Int) (ec : ErrorCode) : MutRes :=
  ⟨{ s with verify := v }, ec, []⟩

/-- `context::set_verify_callback(VerifyCallback callback, error_code& ec)`:
`m_impl->verify_callback = callback; return ec;`. -/
def set_verify_callback (s : CredState) (callback : Nat) (ec : ErrorCode) : MutRes :=
  ⟨{ s with verify_callback := some callback }, ec, []⟩

/-- `context::use_passphrase(std::string const& pass, error_code& ec)`:
`m_impl->passphrase = pass; return ec;`. -/
def use_passphrase (s : CredState) (pass : String) (ec : ErrorCode) : MutRes :=
  ⟨{ s with passphrase := pass }, ec, []⟩

/-- `context::use_certificate_file(filename, format, error_code& ec)`:
`m_impl->certificate_file = filename; return ec;` (the format is ignored and
nothing is installed yet). -/
def use_certificate_file (s : CredState) (filename : String) (_fmt : file_format)
    (ec : ErrorCode) : MutRes :=
  ⟨{ s with certificate_file := filename }, ec, []⟩

/-- `context::use_private_key_file(filename, format, error_code& ec)`.
`keyFileRet` is the value `gnutls_certificate_set_x509_key_file2` returns when
the call is reached. -/
def use_private_key_file (s : CredState) (filename : String) (fmt : file_format)
    (keyFileRet : Int) (ec : ErrorCode) : MutRes :=
  if s.certificate_file = "" then ⟨s, operation_not_supported, []⟩
  else
    let s := { s with private_key_file := filename }
    let ec := if keyFileRet != GNUTLS_E_SUCCESS then ⟨keyFileRet, .ssl⟩ else ec
    ⟨s, ec, [.set_x509_key_file2 s.certificate_file s.private_key_file fmt s.passphrase]⟩

/-- `context::use_tmp_dh_file(std::string const&, error_code& ec)`: a no-op
(DH parameters are negotiated per RFC 7919 since GnuTLS 3.6.0). -/
def use_tmp_dh_file (s : CredState) (_filename : String) (ec : ErrorCode) : MutRes :=
  ⟨s, ec, []⟩

/-- `context::use_certificate(const_buffer, format, error_code& ec)`:
`m_impl->certificate.assign(data, size); return ec;` — the buffer contents
are modelled as the string `certificate`. -/
def use_certificate (s : CredState) (certificate : String) (_fmt : file_format)
    (ec : ErrorCode) : MutRes :=
  ⟨{ s with certificate := certificate }, ec, []⟩

/-- `context::use_private_key(const_buffer, format, error_code& ec)`.
`keyMemRet` is the value `gnutls_certificate_set_x509_key_mem2` returns when
the call is reached. -/
def use_private_key (s : CredState) (private_key : String) (fmt : file_format)
    (keyMemRet : Int) (ec : ErrorCode) : MutRes :=
  if s.certificate = "" then ⟨s, operation_not_supported, []⟩
  else
    let s := { s with private_key := private_key }
    let ec := if keyMemRet != GNUTLS_E_SUCCESS then ⟨keyMemRet, .ssl⟩ else ec
    ⟨s, ec, [.set_x509_key_mem2 s.certificate s.private_key fmt s.passphrase]⟩

/-- `context::use_tmp_dh(const_buffer const&, error_code& ec)`: a no-op. -/
def use_tmp_dh (s : CredState) (_dh : String) (ec : ErrorCode) : MutRes :=
  ⟨s, ec, []⟩

/-- `context::set_servername_callback(cb, error_code& ec)`:
`m_impl->servername_callback = std::move(cb); return ec;`. -/
def set_servername_callback (s : CredState) (cb : Nat) (ec : ErrorCode) : MutRes :=
  ⟨{ s with servername_callback := some cb }, ec, []⟩

/-- `context::set_verify_trust(const_buffer, format, error_code& ec)`.
`trustRet` is the value `gnutls_certificate_set_x509_trust_mem` returns
(the number of certificates processed, or a negative error code); the source
reports an error exactly when `ret < 0`. -/
def set_verify_trust (s : CredState) (certificate : String) (fmt : file_format)
    (trustRet : Int) (ec : ErrorCode) : MutRes :=
  let ec := if trustRet < 0 then ⟨trustRet, .ssl⟩ else ec
  ⟨s, ec, [.set_x509_trust_mem certificate fmt]⟩

/-- `context::native_handle()`: `return m_impl->cred;`. -/
def native_handle (s : CredState) : Nat := s.cred

/-- The result type of a throwing-form mutator: either a raised
`system_error` carrying an `error_code`, or the post-state together with the
native calls made. -/
abbrev ThrowRes := Except ErrorCode (CredState × List NativeCall)

/-- What the spec prescribes for every throwing form: invoke the non-throwing
form with a default-constructed `error_code`, and raise an exception carrying
the same code if and only if the output parameter indicates failure.
This definition follows the SPEC wording; each `*_throwing` definition below
transcribes the corresponding source wrapper, and the two are compared. -/
def throwWrapSpec (f : ErrorCode → MutRes) : ThrowRes :=
  let r := f ErrorCode.success
  if r.ec.isFailure then .error r.ec else .ok (r.state, r.calls)

/-- Throwing `context::set_options(options)`. -/
def set_options_throwing (s : CredState) (opts : Int) : ThrowRes :=
  let r := set_options s opts ErrorCode.success
  if r.ec.isFailure then .error r.ec else .ok (r.state, r.calls)

/-- Throwing `context::clear_options()`. -/
def clear_options_throwing (s : CredState) : ThrowRes :=
  let r := clear_options s ErrorCode.success
  if r.ec.isFailure then .error r.ec else .ok (r.state, r.calls)

/-- Throwing `context::set_default_verify_paths()`. -/
def set_default_verify_paths_throwing (s : CredState) (sysTrustRet : Int) : ThrowRes :=
  let r := set_default_verify_paths s sysTrustRet ErrorCode.success
  if r.ec.isFailure then .error r.ec else .ok (r.state, r.calls)

/-- Throwing `context::set_verify_mode(verify_mode)`. -/
def set_verify_mode_throwing (s : CredState) (v : Int) : ThrowRes :=
  let r := set_verify_mode s v ErrorCode.success
  if r.ec.isFailure then .error r.ec else .ok (r.state, r.calls)

/-- Throwing `context::set_verify_callback(VerifyCallback)`. -/
def set_verify_callback_throwing (s : CredState) (callback : Nat) : ThrowRes :=
  let r := set_verify_callback s callback ErrorCode.success
  if r.ec.isFailure then .error r.ec else .ok (r.state, r.calls)

/-- Throwing `context::use_passphrase(std::string const&)`. -/
def use_passphrase_throwing (s : CredState) (pass : String) : ThrowRes :=
  let r := use_passphrase s pass ErrorCode.success
  if r.ec.isFailure then .error r.ec else .ok (r.state, r.calls)

/-- Throwing `context::use_certificate_file(filename, format)`. -/
def use_certificate_file_throwing (s : CredState) (filename : String)
    (fmt : file_format) : ThrowRes :=
  let r := use_certificate_file s filename fmt ErrorCode.success
  if r.ec.isFailure then .error r.ec else .ok (r.state, r.calls)

/-- Throwing `context::use_private_key_file(filename, format)`. -/
def use_private_key_file_throwing (s : CredState) (filename : String)
    (fmt : file_format) (keyFileRet : Int) : ThrowRes :=
  let r := use_private_key_file s filename fmt keyFileRet ErrorCode.success
  if r.ec.isFailure then .error r.ec else .ok (r.state, r.calls)

/-- Throwing `context::use_tmp_dh_file(filename)`. -/
def use_tmp_dh_file_throwing (s : CredState) (filename : String) : ThrowRes :=
  let r := use_tmp_dh_file s filename ErrorCode.success
  if r.ec.isFailure then .error r.ec else .ok (r.state, r.calls)

/-- Throwing `context::use_certificate(const_buffer, format)`. -/
def use_certificate_throwing (s : CredState) (certificate : String)
    (fmt : file_format) : ThrowRes :=
  let r := use_certificate s certificate fmt ErrorCode.success
  if r.ec.isFailure then .error r.ec else .ok (r.state, r.calls)

/-- Throwing `context::use_private_key(const_buffer, format)`. -/
def use_private_key_throwing (s : CredState) (private_key : String)
    (fmt : file_format) (keyMemRet : Int) : ThrowRes :=
  let r := use_private_key s private_key fmt keyMemRet ErrorCode.success
  if r.ec.isFailure then .error r.ec else .ok (r.state, r.calls)

/-- Throwing `context::use_tmp_dh(const_buffer const&)`. -/
def use_tmp_dh_throwing (s : CredState) (dh : String) : ThrowRes :=
  let r := use_tmp_dh s dh ErrorCode.success
  if r.ec.isFailure then .error r.ec else .ok (r.state, r.calls)

/-- The configuration mutators of `context`, enumerated for reasoning about
the API surface. -/
inductive Mutator
  | set_options
  | clear_options
  | set_default_verify_paths
  | set_verify_mode
  | set_verify_callback
  | use_passphrase
  | use_certificate_file
  | use_private_key_file
  | use_tmp_dh_file
  | use_certificate
  | use_private_key
  | use_tmp_dh
  | set_servername_callback
  | set_verify_trust
deriving DecidableEq, Repr

/-- Which mutators the header declares a throwing overload for (the
`#ifndef BOOST_NO_EXCEPTIONS` wrappers). In the source, every mutator has one
except `set_servername_callback` and `set_verify_trust`, which exist only in
the `error_code&` form. -/
def hasThrowingForm : Mutator → Bool
  | .set_servername_callback => false
  | .set_verify_trust => false
  | _ => true

/-- The state of a fresh `context::impl` after the member initializers and a
successful `gnutls_certificate_allocate_credentials` storing `cred`. -/
def initState (m : Nat) (cred : Nat) : CredState :=
  { m := m, cred := cred, verify := 0, opts := 0,
    certificate_file := "", private_key_file := "",
    certificate := "", private_key := "", passphrase := "",
    verify_callback := none, servername_callback := none }

/-- `context::impl::impl(context* p, method m)` (and thereby
`context::context(method m)`): allocate the native credential handle; on a
non-success return throw `std::runtime_error` (modelled as `.error msg`,
the constructor has no `error_code&` overload); on success install the known
DH parameters. `allocRet` and `allocHandle` are the status and handle the
engine's allocation call produces. -/
def impl_construct (m : Nat) (allocRet : Int) (allocHandle : Nat) :
    Except String (CredState × List NativeCall) :=
  if allocRet != GNUTLS_E_SUCCESS then
    .error "gnutls_certificate_allocate_credentials failed"
  else
    .ok (initState m allocHandle, [.set_known_dh_params])

/-- The world of contexts and credential stores for the move-semantics claim:
`impl_of c` is the `shared_ptr m_impl` held by context `c` (`none` = empty),
`parent_of i` is `impl i`'s back-pointer to its owning context, and
`cred_of i` is `impl i`'s native credential handle. -/
structure MoveWorld where
  impl_of : Nat → Option Nat
  parent_of : Nat → Option Nat
  cred_of : Nat → Nat

/-- `context::operator=(context&& other)`:
`m_impl = std::move(other.m_impl); m_impl->parent = this; return *this;` —
the destination takes the source's store pointer, the source's pointer
becomes null, and the store's back-pointer is re-aimed at the destination. -/
def move_assign (w : MoveWorld) (dst src : Nat) : MoveWorld :=
  let srcImpl := w.impl_of src
  { impl_of := fun c => if c = src then none else if c = dst then srcImpl else w.impl_of c
    parent_of := fun i => if srcImpl = some i then some dst else w.parent_of i
    cred_of := w.cred_of }

/-- `context::native_handle()` in the `MoveWorld` model: `m_impl->cred`
(`none` when `m_impl` is null and the dereference would be invalid). -/
def native_handle_of (w : MoveWorld) (c : Nat) : Option Nat :=
  (w.impl_of c).map w.cred_of

/-- A concrete two-context world used to instantiate the move-assignment
theorem: context 1 holds store 10 (handle 100), context 2 holds store 20
(handle 200), each store back-pointing at its owner. -/
def sampleWorld : MoveWorld :=
  { impl_of := fun c => if c = 1 then some 10 else if c = 2 then some 20 else none
    parent_of := fun i => if i = 10 then some 1 else if i = 20 then some 2 else none
    cred_of := fun i => if i = 10 then 100 else if i = 20 then 200 else 0 }

/-! ## Theorems for the claims -/

/-- Claim C1, counterexample: the sequencing check in `use_private_key` tests
`m_impl->certificate.empty()`, not "a certificate has ever been successfully
stored". Storing a zero-length certificate buffer via `use_certificate`
succeeds (the out-parameter stays success), yet the subsequent
`use_private_key` still fails with `operation_not_supported`, contradicting
the claim that a stored zero-length certificate buffer must not trigger the
sequencing error. -/
theorem claim_C1_counterexample :
    (use_certificate (initState tls 1) "" file_format.pem ErrorCode.success).ec
        = ErrorCode.success ∧
    (use_private_key
        (use_certificate (initState tls 1) "" file_format.pem ErrorCode.success).state
        "KEY" file_format.pem 0 ErrorCode.success).ec
        = operation_not_supported := by
  constructor
  · rfl
  · decide

/-- Claim C1, amended: whenever the stored certificate buffer (resp. the
stored certificate file path) is empty — which is the code's actual
precondition, and in particular holds both when no certificate was ever
stored and when a zero-length certificate buffer was stored —
`use_private_key` (resp. `use_private_key_file`) fails with
`operation_not_supported`, makes no native-engine call, and leaves the
credential store (including the stored private-key material) unchanged. -/
theorem claim_C1_sequencing_error (s : CredState) (key : String) (fmt : file_format)
    (ret : Int) (ec : ErrorCode) :
    (s.certificate = "" →
      use_private_key s key fmt ret ec = ⟨s, operation_not_supported, []⟩) ∧
    (s.certificate_file = "" →
      use_private_key_file s key fmt ret ec = ⟨s, operation_not_supported, []⟩) := by
  constructor
  · intro h
    simp [use_private_key, h]
  · intro h
    simp [use_private_key_file, h]

/-- Claim C1, witness: the amended theorem instantiated on a fresh store. -/
theorem claim_C1_sequencing_error_witness :
    use_private_key (initState tls 1) "KEY" file_format.pem 0 ErrorCode.success
        = ⟨initState tls 1, operation_not_supported, []⟩ ∧
    use_private_key_file (initState tls 1) "KEY" file_format.pem 0 ErrorCode.success
        = ⟨initState tls 1, operation_not_supported, []⟩ :=
  ⟨(claim_C1_sequencing_error (initState tls 1) "KEY" file_format.pem 0
      ErrorCode.success).1 rfl,
   (claim_C1_sequencing_error (initState tls 1) "KEY" file_format.pem 0
      ErrorCode.success).2 rfl⟩

/-- Claim C2: evaluation of the accessors on the named method constants.
`is_server` decodes bit 1 correctly (true exactly on the `_server`
constants), but `tls_version` shifts by 16 while the constants encode the
forced version in bits 8..15 (source comment `0xXY.. => TLS X.Y`), so it
returns 0 for every named constant — in particular for `tlsv12 = 0x1200` it
returns 0, not the documented `0x12` pair, contradicting the claim (and the
source's own comment): the version-forcing accessor is a no-op. -/
theorem claim_C2_tls_version_evaluation :
    tls_version tlsv12 = 0 ∧
    tls_version tlsv12 ≠ 0x12 ∧
    documented_tls_version tlsv12 = 0x12 ∧
    (methodConstants.all fun m => tls_version m == 0) = true ∧
    (methodConstants.all fun m => is_server m == serverConstants.contains m) = true := by
  decide

/-- Claim C3, counterexample: not every configuration mutator has a throwing
form — `set_servername_callback` (and likewise `set_verify_trust`) exists
only in the `error_code&` form in the header. -/
theorem claim_C3_counterexample :
    ¬ ∀ mu : Mutator, hasThrowingForm mu = true :=
  fun h => absurd (h Mutator.set_servername_callback) (by decide)

/-- Claim C3, amended: every configuration mutator except
`set_servername_callback` and `set_verify_trust` exists in both a throwing
form and a non-throwing error-out-parameter form (those two exist only in
the non-throwing form), and each throwing form behaves exactly as: invoke
the non-throwing form on a default-constructed `error_code`, then raise an
exception carrying the same code if and only if the output parameter
indicates failure (`throwWrapSpec`). -/
theorem claim_C3_dual_convention :
    (∀ mu : Mutator, hasThrowingForm mu = true ↔
        (mu ≠ Mutator.set_servername_callback ∧ mu ≠ Mutator.set_verify_trust)) ∧
    (∀ s opts, set_options_throwing s opts = throwWrapSpec (set_options s opts)) ∧
    (∀ s, clear_options_throwing s = throwWrapSpec (clear_options s)) ∧
    (∀ s r, set_default_verify_paths_throwing s r
        = throwWrapSpec (set_default_verify_paths s r)) ∧
    (∀ s v, set_verify_mode_throwing s v = throwWrapSpec (set_verify_mode s v)) ∧
    (∀ s cb, set_verify_callback_throwing s cb
        = throwWrapSpec (set_verify_callback s cb)) ∧
    (∀ s p, use_passphrase_throwing s p = throwWrapSpec (use_passphrase s p)) ∧
    (∀ s f fmt, use_certificate_file_throwing s f fmt
        = throwWrapSpec (use_certificate_file s f fmt)) ∧
    (∀ s f fmt r, use_private_key_file_throwing s f fmt r
        = throwWrapSpec (use_private_key_file s f fmt r)) ∧
    (∀ s f, use_tmp_dh_file_throwing s f = throwWrapSpec (use_tmp_dh_file s f)) ∧
    (∀ s c fmt, use_certificate_throwing s c fmt
        = throwWrapSpec (use_certificate s c fmt)) ∧
    (∀ s k fmt r, use_private_key_throwing s k fmt r
        = throwWrapSpec (use_private_key s k fmt r)) ∧
    (∀ s d, use_tmp_dh_throwing s d = throwWrapSpec (use_tmp_dh s d)) :=
  ⟨by intro mu; cases mu <;> decide,
   fun _ _ => rfl, fun _ => rfl, fun _ _ => rfl, fun _ _ => rfl, fun _ _ => rfl,
   fun _ _ => rfl, fun _ _ _ => rfl, fun _ _ _ _ => rfl, fun _ _ => rfl,
   fun _ _ _ => rfl, fun _ _ _ _ => rfl, fun _ _ => rfl⟩

/-- Claim C4: after `dst = std::move(src)` on a source context that holds a
credential store, the destination's `native_handle()` equals the value the
source's `native_handle()` returned before the move, the store's back-pointer
(`parent`) now points at the destination, and the source no longer holds a
store reference. -/
theorem claim_C4_move_assign (w : MoveWorld) (dst src si : Nat)
    (hsrc : w.impl_of src = some si) (hne : dst ≠ src) :
    native_handle_of (move_assign w dst src) dst = native_handle_of w src ∧
    (move_assign w dst src).parent_of si = some dst ∧
    (move_assign w dst src).impl_of src = none := by
  refine ⟨?_, ?_, ?_⟩ <;> simp [move_assign, native_handle_of, hsrc, hne]

/-- Claim C4, witness: the move theorem on the concrete two-context world. -/
theorem claim_C4_move_assign_witness :
    native_handle_of (move_assign sampleWorld 1 2) 1 = native_handle_of sampleWorld 2 ∧
    (move_assign sampleWorld 1 2).parent_of 20 = some 1 ∧
    (move_assign sampleWorld 1 2).impl_of 2 = none :=
  claim_C4_move_assign sampleWorld 1 2 20 (by decide) (by decide)

/-- Claim C5: starting from a success `error_code`, `set_verify_trust`
reports failure if and only if the native
`gnutls_certificate_set_x509_trust_mem` call returns a negative result, and
in that case the reported code is exactly the native status in the ssl error
category. (The zero-valid-certificates scenario is the engine returning a
negative code such as GNUTLS_E_NO_CERTIFICATE_FOUND = -49, covered by the
`ret < 0` direction and instantiated in the witness.) -/
theorem claim_C5_set_verify_trust (s : CredState) (ca : String) (fmt : file_format)
    (ret : Int) (ec : ErrorCode) (hec : ec = ErrorCode.success) :
    ((set_verify_trust s ca fmt ret ec).ec.isFailure = true ↔ ret < 0) ∧
    (ret < 0 → (set_verify_trust s ca fmt ret ec).ec = ⟨ret, ErrCategory.ssl⟩) := by
  subst hec
  by_cases h : ret < 0
  · simp [set_verify_trust, h, ErrorCode.isFailure, bne_iff_ne]
    omega
  · simp [set_verify_trust, h, ErrorCode.isFailure, ErrorCode.success]

/-- Claim C5, witness: a trust-install returning -49
(GNUTLS_E_NO_CERTIFICATE_FOUND, the engine's result for a buffer with zero
valid certificates) is reported as a failure with code -49 in the ssl
category. -/
theorem claim_C5_set_verify_trust_witness :
    ((set_verify_trust (initState tls 1) "" file_format.pem (-49)
        ErrorCode.success).ec.isFailure = true ↔ (-49 : Int) < 0) ∧
    ((-49 : Int) < 0 → (set_verify_trust (initState tls 1) "" file_format.pem (-49)
        ErrorCode.success).ec = ⟨-49, ErrCategory.ssl⟩) :=
  claim_C5_set_verify_trust (initState tls 1) "" file_format.pem (-49)
    ErrorCode.success rfl

/-- Claim C6: the verify-mode and options bit-sets are pure stored state —
`set_verify_mode v` stores exactly `v` and reports no error, `set_options v`
stores exactly `v` and reports no error, and `clear_options` resets the
stored options to 0 regardless of the prior value, for every starting
state. -/
theorem claim_C6_bitset_state (s : CredState) (v opts : Int) (ec : ErrorCode) :
    set_verify_mode s v ec = ⟨{ s with verify := v }, ec, []⟩ ∧
    (set_verify_mode s v ec).state.verify = v ∧
    set_options s opts ec = ⟨{ s with opts := opts }, ec, []⟩ ∧
    (set_options s opts ec).state.opts = opts ∧
    clear_options s ec = ⟨{ s with opts := 0 }, ec, []⟩ ∧
    (clear_options s ec).state.opts = 0 :=
  ⟨rfl, rfl, rfl, rfl, rfl, rfl⟩

/-- Claim C7: `use_tmp_dh` and `use_tmp_dh_file`, on every input, every
starting state and every incoming `error_code`, leave the credential store
unchanged, leave the error code exactly as passed in, and make no
native-engine call. -/
theorem claim_C7_tmp_dh_noop (s : CredState) (input : String) (ec : ErrorCode) :
    use_tmp_dh s input ec = ⟨s, ec, []⟩ ∧
    use_tmp_dh_file s input ec = ⟨s, ec, []⟩ :=
  ⟨rfl, rfl⟩

/-- Claim C8: for every named method constant, if the engine's credential
allocation succeeds and yields a non-null handle, construction succeeds and
`native_handle()` is that non-null handle; if allocation fails, construction
raises an exception (`.error`, the constructor has no error-code form). -/
theorem claim_C8_construction (m : Nat) (allocRet : Int) (allocHandle : Nat) :
    (m ∈ methodConstants → allocRet = GNUTLS_E_SUCCESS → allocHandle ≠ 0 →
      impl_construct m allocRet allocHandle
          = .ok (initState m allocHandle, [NativeCall.set_known_dh_params]) ∧
      native_handle (initState m allocHandle) ≠ 0) ∧
    (allocRet ≠ GNUTLS_E_SUCCESS →
      impl_construct m allocRet allocHandle
          = .error "gnutls_certificate_allocate_credentials failed") := by
  constructor
  · intro _ h hn
    subst h
    exact ⟨by simp [impl_construct], hn⟩
  · intro h
    simp [impl_construct, bne_iff_ne, h]

/-- Claim C8, witness: constructing with `tlsv12` and a successful allocation
of handle 1 succeeds with non-null `native_handle`; an allocation returning
GNUTLS_E_MEMORY_ERROR = -25 raises. -/
theorem claim_C8_construction_witness :
    (impl_construct tlsv12 0 1
        = .ok (initState tlsv12 1, [NativeCall.set_known_dh_params]) ∧
      native_handle (initState tlsv12 1) ≠ 0) ∧
    impl_construct tls (-25) 1
        = .error "gnutls_certificate_allocate_credentials failed" :=
  ⟨(claim_C8_construction tlsv12 0 1).1 (by decide) rfl (by decide),
   (claim_C8_construction tls (-25) 1).2 (by decide)⟩

/-- Claim C9: the file-path and in-memory certificate stores are independent.
`use_private_key_file` gets past the sequencing check (makes its native call)
exactly when the stored certificate file path is non-empty, and
`use_private_key` exactly when the stored certificate buffer is non-empty;
storing a certificate buffer never changes the certificate file path and
storing a certificate file path never changes the certificate buffer, so
neither form satisfies the other's precondition. -/
theorem claim_C9_store_independence (s : CredState) (f key cert : String)
    (fmt : file_format) (ret : Int) (ec : ErrorCode) :
    ((use_private_key_file s f fmt ret ec).calls ≠ [] ↔ s.certificate_file ≠ "") ∧
    ((use_private_key s key fmt ret ec).calls ≠ [] ↔ s.certificate ≠ "") ∧
    (use_certificate s cert fmt ec).state.certificate_file = s.certificate_file ∧
    (use_certificate_file s f fmt ec).state.certificate = s.certificate := by
  refine ⟨?_, ?_, rfl, rfl⟩
  · by_cases h : s.certificate_file = "" <;> simp [use_private_key_file, h]
  · by_cases h : s.certificate = "" <;> simp [use_private_key, h]

/-- Claim C10: the never-failing non-throwing mutators never assign to the
error-code out-parameter: for every starting state, every input and every
incoming `error_code` value, the code held after the call equals the value
passed in (a pre-existing failure value is preserved, not cleared). -/
theorem claim_C10_ec_preserved (s : CredState) (opts v : Int) (cb sb : Nat)
    (pass f cert dh : String) (fmt : file_format) (ec : ErrorCode) :
    (set_options s opts ec).ec = ec ∧
    (clear_options s ec).ec = ec ∧
    (set_verify_mode s v ec).ec = ec ∧
    (set_verify_callback s cb ec).ec = ec ∧
    (use_passphrase s pass ec).ec = ec ∧
    (use_certificate_file s f fmt ec).ec = ec ∧
    (use_certificate s cert fmt ec).ec = ec ∧
    (use_tmp_dh s dh ec).ec = ec ∧
    (use_tmp_dh_file s f ec).ec = ec ∧
    (set_servername_callback s sb ec).ec = ec :=
  ⟨rfl, rfl, rfl, rfl, rfl, rfl, rfl, rfl, rfl, rfl⟩

end BoostAsioGnutls
